import Mathlib

/-!
Shallow embedding of `src/main.go` of `gcp-sql-scheduler`: a small HTTP
control-plane service with three handlers (`/start`, `/stop`, `/check`)
around Google's Cloud SQL admin API, plus a uniform response envelope
with a four-way error classification (`writeErrorResponse`).

External effects (the sqladmin client, `time.Now`, the request body read)
are modelled as explicit inputs: an `Oracle` records what each provider
call site would return, handlers additionally return the list of provider
calls they performed, and the wall clock is a `GoTime` argument.
-/

namespace GcpSqlScheduler

/-! ## Time: `time.Now().Format(time.RFC3339)` -/

/-- One reading of the wall clock, as the fields Go's RFC3339 layout
`"2006-01-02T15:04:05Z07:00"` prints: calendar fields plus the zone
offset in minutes east of UTC. -/
structure GoTime where
  year : Nat
  month : Nat
  day : Nat
  hour : Nat
  minute : Nat
  second : Nat
  offsetMinutes : Int
deriving DecidableEq, Repr

/-- A clock reading that `time.Now()` can actually produce: in-range
calendar fields and a zone offset below a day. -/
def validTime (t : GoTime) : Prop :=
  t.year ≤ 9999 ∧ 1 ≤ t.month ∧ t.month ≤ 12 ∧ 1 ≤ t.day ∧ t.day ≤ 31 ∧
  t.hour ≤ 23 ∧ t.minute ≤ 59 ∧ t.second ≤ 59 ∧ t.offsetMinutes.natAbs < 24 * 60

instance (t : GoTime) : Decidable (validTime t) := by
  unfold validTime; infer_instance

/-- The decimal digit character for `k ≤ 9` (Go's zero-padded `appendInt`). -/
def digitChar (k : Nat) : Char := Char.ofNat (48 + k)

/-- Two-digit zero-padded rendering, as Go prints month, day, hour,
minute, second and the offset components (all ≤ 99 here). -/
def pad2 (n : Nat) : List Char := [digitChar (n / 10), digitChar (n % 10)]

/-- Four-digit zero-padded rendering of the year. -/
def pad4 (n : Nat) : List Char :=
  [digitChar (n / 1000), digitChar (n / 100 % 10), digitChar (n / 10 % 10), digitChar (n % 10)]

/-- The characters Go's `Format(time.RFC3339)` emits for the zone:
`Z` for UTC, otherwise a sign and `hh:mm`. -/
def offsetChars (off : Int) : List Char :=
  if off = 0 then ['Z']
  else
    let a := off.natAbs
    (if 0 < off then '+' else '-') :: (pad2 (a / 60) ++ ':' :: pad2 (a % 60))

/-- The string `time.Now().Format(time.RFC3339)` produces for clock
reading `t`: `YYYY-MM-DDTHH:MM:SS` followed by the zone. -/
def formatRFC3339 (t : GoTime) : String :=
  String.mk
    (pad4 t.year ++ '-' :: pad2 t.month ++ '-' :: pad2 t.day ++
     'T' :: pad2 t.hour ++ ':' :: pad2 t.minute ++ ':' :: pad2 t.second ++
     offsetChars t.offsetMinutes)

/-! ### An RFC3339 recogniser (for the spec's "parses as RFC3339") -/

/-- Reads one decimal digit. -/
def digitVal (c : Char) : Option Nat :=
  if 48 ≤ c.toNat ∧ c.toNat ≤ 57 then some (c.toNat - 48) else none

/-- Reads exactly two decimal digits. -/
def parse2 : List Char → Option (Nat × List Char)
  | c1 :: c2 :: rest =>
    match digitVal c1, digitVal c2 with
    | some a, some b => some (10 * a + b, rest)
    | _, _ => none
  | _ => none

/-- Reads exactly four decimal digits. -/
def parse4 : List Char → Option (Nat × List Char)
  | c1 :: c2 :: c3 :: c4 :: rest =>
    match digitVal c1, digitVal c2, digitVal c3, digitVal c4 with
    | some a, some b, some c, some d => some (1000 * a + 100 * b + 10 * c + d, rest)
    | _, _, _, _ => none
  | _ => none

/-- Reads one expected separator character. -/
def parseSep (c : Char) : List Char → Option (List Char)
  | x :: rest => if x = c then some rest else none
  | [] => none

/-- Recognises an RFC3339 zone designator consuming the rest of the
input: `Z`, or a sign followed by `hh:mm` in range. -/
def offsetOk : List Char → Bool
  | [] => false
  | c :: rest =>
    if c = 'Z' then decide (rest = [])
    else
      (decide (c = '+') || decide (c = '-')) &&
      (match parse2 rest with
       | some (h, r1) =>
         decide (h ≤ 23) &&
         (match parseSep ':' r1 with
          | some r2 =>
            (match parse2 r2 with
             | some (m, r3) => decide (m ≤ 59) && decide (r3 = [])
             | none => false)
          | none => false)
       | none => false)

/-- Recognises a full RFC3339 date-time over a character list. -/
def rfc3339Core (l : List Char) : Bool :=
  match parse4 l with
  | none => false
  | some (_, r1) =>
  match parseSep '-' r1 with
  | none => false
  | some r2 =>
  match parse2 r2 with
  | none => false
  | some (mo, r3) =>
  match parseSep '-' r3 with
  | none => false
  | some r4 =>
  match parse2 r4 with
  | none => false
  | some (d, r5) =>
  match parseSep 'T' r5 with
  | none => false
  | some r6 =>
  match parse2 r6 with
  | none => false
  | some (h, r7) =>
  match parseSep ':' r7 with
  | none => false
  | some r8 =>
  match parse2 r8 with
  | none => false
  | some (mi, r9) =>
  match parseSep ':' r9 with
  | none => false
  | some r10 =>
  match parse2 r10 with
  | none => false
  | some (se, r11) =>
    decide (1 ≤ mo ∧ mo ≤ 12) && decide (1 ≤ d ∧ d ≤ 31) &&
    decide (h ≤ 23) && decide (mi ≤ 59) && decide (se ≤ 60) && offsetOk r11

/-- A string parses as an RFC3339 date-time. -/
def isRFC3339 (s : String) : Bool := rfc3339Core s.data

/-! ## Data model (`sqladmin` values and the local projection) -/

/-- The fields of `sqladmin.Settings` the program touches. -/
structure Settings where
  tier : String
  activationPolicy : String
deriving DecidableEq, Repr

/-- The fields of `sqladmin.DatabaseInstance` the program touches; this
is also the provider's full patch response. -/
structure DatabaseInstance where
  name : String
  databaseVersion : String
  region : String
  state : String
  settings : Settings
deriving DecidableEq, Repr

/-- Go struct `SQLInstancesData`: exactly the five projected fields with
JSON tags `name`, `database_version`, `region`, `state`, `tier` — no
other field exists on the struct. -/
structure SQLInstancesData where
  name : String
  databaseVersion : String
  region : String
  state : String
  tier : String
deriving DecidableEq, Repr

/-! ## Go error values and the causes handed to `writeErrorResponse` -/

/-- A Go `error` value as the program can observe it: either a
`*googleapi.Error` (with its `Code` and `Message` fields) or any other
error. `errString` is what its `Error()` method returns. -/
inductive GoError where
  | googleapi (code : Int) (message : String) (errString : String)
  | generic (errString : String)
deriving DecidableEq, Repr

/-- The `Error()` method of a `GoError`. -/
def GoError.render : GoError → String
  | .googleapi _ _ s => s
  | .generic s => s

/-- The dynamic value handed to `writeErrorResponse`'s `err interface{}`
parameter. The call sites pass a Go `error`, a plain `string`, or (in
principle) anything else; `other` carries `fmt.Sprintf("%v", e)` of such
a value. -/
inductive Cause where
  | goErr (e : GoError)
  | str (s : String)
  | other (rendering : String)
deriving DecidableEq, Repr

/-- Go's `net/http.StatusText` restricted to the status codes this
program emits (the full table agrees on these entries); unknown codes
give `""` as in Go. -/
def statusText : Nat → String
  | 200 => "OK"
  | 400 => "Bad Request"
  | 401 => "Unauthorized"
  | 405 => "Method Not Allowed"
  | 500 => "Internal Server Error"
  | _ => ""

/-! ## Response envelope -/

/-- The `data` payload of a success envelope: the full patch response for
`/start` and `/stop`, the five-field projection for `/check`. -/
inductive ResponseData where
  | full (d : DatabaseInstance)
  | snapshot (d : SQLInstancesData)
deriving DecidableEq, Repr

/-- The part of the envelope that differs between success and error
responses: `data` on success, `error_type`/`error_description` on error. -/
inductive BodyPayload where
  | success (data : ResponseData)
  | failure (error_type : String) (error_description : String)
deriving DecidableEq, Repr

/-- One JSON response as the two writer functions build it: the shared
fields `status_code`, `status_text`, `message`, `timestamp`, plus the
success or error payload. -/
structure HttpResponse where
  status_code : Nat
  status_text : String
  message : String
  timestamp : String
  body : BodyPayload
deriving DecidableEq, Repr

/-- The type switch in `writeErrorResponse` (src/main.go:236-249): the
`*googleapi.Error` case is tested before the general `error` case, then
`string`, then the default. Returns `(errorType, errorDescription)`. -/
def classifyError : Cause → String × String
  | .goErr (.googleapi code msg _) => ("googleapi_" ++ toString code, msg)
  | .goErr (.generic s) => ("internal_error", s)
  | .str s => ("internal_error", s)
  | .other r => ("unknown_error", r)

/-- Go `writeErrorResponse` (src/main.go:232-263): classifies the cause
and emits the error envelope with a fresh RFC3339 timestamp. -/
def writeErrorResponse (statusCode : Nat) (message : String) (cause : Cause)
    (now : GoTime) : HttpResponse :=
  { status_code := statusCode
    status_text := statusText statusCode
    message := message
    timestamp := formatRFC3339 now
    body := .failure (classifyError cause).1 (classifyError cause).2 }

/-- Go `writeSuccessResponse` (src/main.go:218-230): emits the success
envelope with a fresh RFC3339 timestamp. -/
def writeSuccessResponse (statusCode : Nat) (message : String) (data : ResponseData)
    (now : GoTime) : HttpResponse :=
  { status_code := statusCode
    status_text := statusText statusCode
    message := message
    timestamp := formatRFC3339 now
    body := .success data }

/-! ## Requests and the provider oracle -/

/-- A JSON value, as `json.Unmarshal` into `map[string]interface{}`
produces them. -/
inductive JsonValue where
  | str (s : String)
  | num (n : Int)
  | bool (b : Bool)
  | null
  | arr (elems : List JsonValue)
  | obj (fields : List (String × JsonValue))

/-- The outcome of `io.ReadAll(r.Body)` followed by `json.Unmarshal` into
`map[string]interface{}`: a read error, a parse error, or the parsed
top-level object (the association list models the Go map; keys unique). -/
inductive BodyResult where
  | readErr (e : GoError)
  | invalidJson (e : GoError)
  | json (fields : List (String × JsonValue))

/-- An inbound HTTP request as the handlers consume it. -/
structure Request where
  method : String
  body : BodyResult

/-- One remote call to the provider: `sqladmin.NewService`
(authentication), `Instances.Get`, or `Instances.Patch` with the
activation policy being set. -/
inductive ProviderCall where
  | auth
  | get
  | patch (activationPolicy : String)
deriving DecidableEq, Repr

/-- What each provider call site would return during one request:
the handler's own `sqladmin.NewService`, the `NewService` inside
`checkStatusInstances`, `Instances.Get`, and `Instances.Patch`. -/
structure Oracle where
  handlerAuth : Except GoError Unit
  statusAuth : Except GoError Unit
  getInstance : Except GoError DatabaseInstance
  patchInstance : String → Except GoError DatabaseInstance

/-- Go `payload["ActivationPolicy"].(string)`: the map lookup followed by
the string type assertion; `none` when the key is absent or the value is
not a JSON string. -/
def lookupString (fields : List (String × JsonValue)) (key : String) : Option String :=
  match fields.lookup key with
  | some (JsonValue.str s) => some s
  | _ => none

/-- Go `checkStatusInstances` (src/main.go:265-286): opens its own
service, gets the instance, and projects it; both failures are wrapped
with `fmt.Errorf` (whose `Error()` is the prefix followed by the wrapped
error's `Error()`). Also returns the provider calls it performed. -/
def checkStatusInstances (o : Oracle) :
    Except GoError SQLInstancesData × List ProviderCall :=
  match o.statusAuth with
  | .error e =>
    (.error (.generic ("failed to find Service Account: " ++ e.render)), [.auth])
  | .ok _ =>
    match o.getInstance with
    | .error e =>
      (.error (.generic ("failed to get instance details, instances not found.: " ++ e.render)),
       [.auth, .get])
    | .ok inst =>
      (.ok ⟨inst.name, inst.databaseVersion, inst.region, inst.state, inst.settings.tier⟩,
       [.auth, .get])

/-! ## Handlers -/

/-- Go `startInstanceHandler` (src/main.go:79-129): method check, own
`NewService`, `checkStatusInstances` (result discarded), body read and
parse, `ActivationPolicy` validation, then `Instances.Patch`. Returns
the response written and the provider calls performed, in order. -/
def startInstanceHandler (o : Oracle) (r : Request) (now : GoTime) :
    HttpResponse × List ProviderCall :=
  if r.method ≠ "POST" then
    (writeErrorResponse 405 "Method not allowed." (.str "") now, [])
  else
    match o.handlerAuth with
    | .error e =>
      (writeErrorResponse 401 "Service Account not found." (.goErr e) now, [.auth])
    | .ok _ =>
      match checkStatusInstances o with
      | (.error e, calls) =>
        (writeErrorResponse 500 "Instances not found." (.str e.render) now, .auth :: calls)
      | (.ok _, calls) =>
        match r.body with
        | .readErr e =>
          (writeErrorResponse 400 "Failed to read request body." (.goErr e) now, .auth :: calls)
        | .invalidJson e =>
          (writeErrorResponse 400 "Invalid JSON format." (.goErr e) now, .auth :: calls)
        | .json fields =>
          match lookupString fields "ActivationPolicy" with
          | none =>
            (writeErrorResponse 400
              "Invalid value for ActivationPolicy. Must be 'ALWAYS' or 'NEVER'." (.str "") now,
             .auth :: calls)
          | some activationPolicy =>
            if activationPolicy ≠ "ALWAYS" ∧ activationPolicy ≠ "NEVER" then
              (writeErrorResponse 400
                "Invalid value for ActivationPolicy. Must be 'ALWAYS' or 'NEVER'." (.str "") now,
               .auth :: calls)
            else
              match o.patchInstance activationPolicy with
              | .error e =>
                (writeErrorResponse 500 "Failed to start instance." (.goErr e) now,
                 .auth :: calls ++ [.patch activationPolicy])
              | .ok doStartInstances =>
                (writeSuccessResponse 200
                  "Instance successfully started. Check console for details."
                  (.full doStartInstances) now,
                 .auth :: calls ++ [.patch activationPolicy])

/-- Go `stopInstancesHandler` (src/main.go:131-187): same shape as the
start handler, with the extra `status.State != "RUNNABLE"` precondition
between the status fetch and the body read. -/
def stopInstancesHandler (o : Oracle) (r : Request) (now : GoTime) :
    HttpResponse × List ProviderCall :=
  if r.method ≠ "POST" then
    (writeErrorResponse 405 "Method not allowed." (.str "") now, [])
  else
    match o.handlerAuth with
    | .error e =>
      (writeErrorResponse 401 "Service Account not found." (.goErr e) now, [.auth])
    | .ok _ =>
      match checkStatusInstances o with
      | (.error e, calls) =>
        (writeErrorResponse 500 "Instances not found." (.str e.render) now, .auth :: calls)
      | (.ok status, calls) =>
        if status.state ≠ "RUNNABLE" then
          (writeErrorResponse 400 ("Instance currently in " ++ status.state ++ " state.")
            (.str "") now, .auth :: calls)
        else
          match r.body with
          | .readErr e =>
            (writeErrorResponse 400 "Failed to read request body." (.goErr e) now, .auth :: calls)
          | .invalidJson e =>
            (writeErrorResponse 400 "Invalid JSON format." (.goErr e) now, .auth :: calls)
          | .json fields =>
            match lookupString fields "ActivationPolicy" with
            | none =>
              (writeErrorResponse 400
                "Invalid value for ActivationPolicy. Must be 'ALWAYS' or 'NEVER'." (.str "") now,
               .auth :: calls)
            | some activationPolicy =>
              if activationPolicy ≠ "ALWAYS" ∧ activationPolicy ≠ "NEVER" then
                (writeErrorResponse 400
                  "Invalid value for ActivationPolicy. Must be 'ALWAYS' or 'NEVER'." (.str "") now,
                 .auth :: calls)
              else
                match o.patchInstance activationPolicy with
                | .error e =>
                  (writeErrorResponse 500 "Failed to stop instance." (.goErr e) now,
                   .auth :: calls ++ [.patch activationPolicy])
                | .ok doStopInstances =>
                  (writeSuccessResponse 200
                    "Instance successfully stopped. Check console for details."
                    (.full doStopInstances) now,
                   .auth :: calls ++ [.patch activationPolicy])

/-- Go `checkInstancesHandler` (src/main.go:189-216): GET only, own
`NewService`, `checkStatusInstances`, then re-projects the snapshot into
`SQLInstancesData` and writes it as the success data. -/
def checkInstancesHandler (o : Oracle) (r : Request) (now : GoTime) :
    HttpResponse × List ProviderCall :=
  if r.method ≠ "GET" then
    (writeErrorResponse 405 "Method not allowed." (.str "") now, [])
  else
    match o.handlerAuth with
    | .error e =>
      (writeErrorResponse 401 "Service Account not found." (.goErr e) now, [.auth])
    | .ok _ =>
      match checkStatusInstances o with
      | (.error e, calls) =>
        (writeErrorResponse 500 "Instances not found." (.str e.render) now, .auth :: calls)
      | (.ok instance_, calls) =>
        (writeSuccessResponse 200 "Successfully fetch instances detail."
          (.snapshot ⟨instance_.name, instance_.databaseVersion, instance_.region,
                      instance_.state, instance_.tier⟩) now,
         .auth :: calls)

/-! ## Derived predicates and concrete fixtures -/

/-- A request body that fails body validation: not valid JSON, or the
`ActivationPolicy` extraction does not produce exactly `"ALWAYS"` or
`"NEVER"` (key absent, non-string value, or any other string). -/
def invalidPolicyBody : BodyResult → Prop
  | .readErr _ => False
  | .invalidJson _ => True
  | .json fields =>
    lookupString fields "ActivationPolicy" ≠ some "ALWAYS" ∧
    lookupString fields "ActivationPolicy" ≠ some "NEVER"

/-- The status codes this program ever passes to a writer function. -/
def emittedCode (n : Nat) : Prop :=
  n = 200 ∨ n = 400 ∨ n = 401 ∨ n = 405 ∨ n = 500

/-- The envelope invariants every written response satisfies: the
timestamp is the formatted clock reading, `status_text` is
`http.StatusText` of `status_code`, and the code is one the program
emits (so its reason phrase is a real one). -/
def goodEnvelope (t : GoTime) (resp : HttpResponse) : Prop :=
  resp.timestamp = formatRFC3339 t ∧
  resp.status_text = statusText resp.status_code ∧
  emittedCode resp.status_code

/-- A clock reading used to exercise the theorems. -/
def sampleTime : GoTime := ⟨2026, 10, 11, 12, 30, 45, 0⟩

/-- A runnable instance used to exercise the theorems. -/
def sampleInstance : DatabaseInstance :=
  ⟨"mydb", "POSTGRES_15", "us-central1", "RUNNABLE", ⟨"db-f1-micro", "ALWAYS"⟩⟩

/-- A stopped instance used to exercise the theorems. -/
def stoppedInstance : DatabaseInstance :=
  ⟨"mydb", "POSTGRES_15", "us-central1", "STOPPED", ⟨"db-f1-micro", "NEVER"⟩⟩

/-- An oracle on which every provider call succeeds and the instance is
runnable. -/
def okOracle : Oracle :=
  { handlerAuth := .ok ()
    statusAuth := .ok ()
    getInstance := .ok sampleInstance
    patchInstance := fun _ => .ok sampleInstance }

/-- Like `okOracle` but the fetched instance is stopped. -/
def stoppedOracle : Oracle := { okOracle with getInstance := .ok stoppedInstance }

/-- A provider-coded lookup failure (`*googleapi.Error` with code 404). -/
def notFoundErr : GoError :=
  .googleapi 404 "The Cloud SQL instance does not exist."
    "googleapi: Error 404: The Cloud SQL instance does not exist., instanceDoesNotExist"

/-- Like `okOracle` but `Instances.Get` fails with `notFoundErr`. -/
def lookupFailOracle : Oracle := { okOracle with getInstance := .error notFoundErr }

/-- Like `okOracle` but the handler's own `sqladmin.NewService` fails
with a credentials error. -/
def authFailOracle : Oracle :=
  { okOracle with handlerAuth := .error (.generic "oauth2: cannot read credentials file") }

/-- A POST request whose JSON body is the empty object. -/
def emptyJsonRequest : Request := ⟨"POST", .json []⟩

/-- A POST request with a lowercase (hence invalid) activation policy. -/
def lowercaseRequest : Request := ⟨"POST", .json [("ActivationPolicy", .str "always")]⟩

/-- A POST request with a valid `"ALWAYS"` activation policy. -/
def alwaysRequest : Request := ⟨"POST", .json [("ActivationPolicy", .str "ALWAYS")]⟩

/-- A POST request with a valid `"NEVER"` activation policy. -/
def neverRequest : Request := ⟨"POST", .json [("ActivationPolicy", .str "NEVER")]⟩

/-- A GET request with an empty JSON body. -/
def getRequest : Request := ⟨"GET", .json []⟩

/-- A PUT request, matching no handler's expected method. -/
def putRequest : Request := ⟨"PUT", .json []⟩

/-! ## Helper lemmas: the formatter's output parses as RFC3339 -/

theorem digitVal_digitChar (k : Nat) (h : k ≤ 9) :
    digitVal (digitChar k) = some k := by
  interval_cases k <;> decide

theorem parse2_pad2 (n : Nat) (rest : List Char) (h : n ≤ 99) :
    parse2 (pad2 n ++ rest) = some (n, rest) := by
  have h1 : n / 10 ≤ 9 := by omega
  have h2 : n % 10 ≤ 9 := by omega
  simp [pad2, parse2, digitVal_digitChar _ h1, digitVal_digitChar _ h2]
  omega

theorem parse2_pad2_nil (n : Nat) (h : n ≤ 99) :
    parse2 (pad2 n) = some (n, []) := by
  have := parse2_pad2 n [] h
  simpa using this

theorem parse4_pad4 (n : Nat) (rest : List Char) (h : n ≤ 9999) :
    parse4 (pad4 n ++ rest) = some (n, rest) := by
  have h1 : n / 1000 ≤ 9 := by omega
  have h2 : n / 100 % 10 ≤ 9 := by omega
  have h3 : n / 10 % 10 ≤ 9 := by omega
  have h4 : n % 10 ≤ 9 := by omega
  simp [pad4, parse4, digitVal_digitChar _ h1, digitVal_digitChar _ h2,
        digitVal_digitChar _ h3, digitVal_digitChar _ h4]
  omega

theorem parseSep_cons (c : Char) (rest : List Char) :
    parseSep c (c :: rest) = some rest := by
  simp [parseSep]

theorem offsetOk_offsetChars (off : Int) (h : off.natAbs < 24 * 60) :
    offsetOk (offsetChars off) = true := by
  have ha1 : off.natAbs / 60 ≤ 23 := by omega
  have ha2 : off.natAbs % 60 ≤ 59 := by omega
  by_cases h0 : off = 0
  · simp [offsetChars, h0, offsetOk]
  · by_cases hpos : 0 < off
    · simp [offsetChars, h0, hpos, offsetOk,
            parse2_pad2 (off.natAbs / 60) _ (by omega), parseSep_cons,
            parse2_pad2_nil (off.natAbs % 60) (by omega), ha1, ha2]
    · simp [offsetChars, h0, hpos, offsetOk,
            parse2_pad2 (off.natAbs / 60) _ (by omega), parseSep_cons,
            parse2_pad2_nil (off.natAbs % 60) (by omega), ha1, ha2]

theorem isRFC3339_formatRFC3339 (t : GoTime) (h : validTime t) :
    isRFC3339 (formatRFC3339 t) = true := by
  obtain ⟨hy, hmo1, hmo2, hd1, hd2, hh, hmi, hs, hoff⟩ := h
  simp only [isRFC3339, formatRFC3339, rfc3339Core]
  simp [parse4_pad4 t.year _ hy, parseSep_cons,
        parse2_pad2 t.month _ (by omega), parse2_pad2 t.day _ (by omega),
        parse2_pad2 t.hour _ (by omega), parse2_pad2 t.minute _ (by omega),
        parse2_pad2 t.second _ (by omega),
        offsetOk_offsetChars t.offsetMinutes hoff, hmo1, hmo2, hd1, hd2, hh, hmi]
  omega

/-! ## Helper lemmas: every written response is a good envelope -/

theorem goodEnvelope_writeError (sc : Nat) (m : String) (c : Cause) (t : GoTime)
    (h : emittedCode sc) : goodEnvelope t (writeErrorResponse sc m c t) :=
  ⟨rfl, rfl, h⟩

theorem goodEnvelope_writeSuccess (sc : Nat) (m : String) (d : ResponseData) (t : GoTime)
    (h : emittedCode sc) : goodEnvelope t (writeSuccessResponse sc m d t) :=
  ⟨rfl, rfl, h⟩

theorem goodEnvelope_start (o : Oracle) (r : Request) (t : GoTime) :
    goodEnvelope t (startInstanceHandler o r t).1 := by
  unfold startInstanceHandler
  repeat' split
  all_goals
    first
      | exact goodEnvelope_writeError _ _ _ _ (by simp [emittedCode])
      | exact goodEnvelope_writeSuccess _ _ _ _ (by simp [emittedCode])

theorem goodEnvelope_stop (o : Oracle) (r : Request) (t : GoTime) :
    goodEnvelope t (stopInstancesHandler o r t).1 := by
  unfold stopInstancesHandler
  repeat' split
  all_goals
    first
      | exact goodEnvelope_writeError _ _ _ _ (by simp [emittedCode])
      | exact goodEnvelope_writeSuccess _ _ _ _ (by simp [emittedCode])

theorem goodEnvelope_check (o : Oracle) (r : Request) (t : GoTime) :
    goodEnvelope t (checkInstancesHandler o r t).1 := by
  unfold checkInstancesHandler
  repeat' split
  all_goals
    first
      | exact goodEnvelope_writeError _ _ _ _ (by simp [emittedCode])
      | exact goodEnvelope_writeSuccess _ _ _ _ (by simp [emittedCode])

/-! ## Claims -/

/-- C1: the classification in `writeErrorResponse` is exactly four-way
and determined by the cause's shape: a `*googleapi.Error` cause yields
`error_type = "googleapi_<code>"` with the provider's message as
description; any other Go `error` yields `"internal_error"` with its
`Error()` text; a plain string yields `"internal_error"` with that
string; any other value yields `"unknown_error"` with its string
rendering. -/
theorem errorClassificationFourWay (sc : Nat) (m : String) (c : Cause) (t : GoTime) :
    (writeErrorResponse sc m c t).body =
      (match c with
       | .goErr (.googleapi code msg _) =>
         BodyPayload.failure ("googleapi_" ++ toString code) msg
       | .goErr (.generic s) => BodyPayload.failure "internal_error" s
       | .str s => BodyPayload.failure "internal_error" s
       | .other r => BodyPayload.failure "unknown_error" r) := by
  cases c with
  | goErr e => cases e <;> rfl
  | str s => rfl
  | other r => rfl

/-- C5: a request to `/start` or `/stop` whose method is not POST, and a
request to `/check` whose method is not GET, get status 405 and cause no
provider call at all. -/
theorem methodNotAllowedNoProviderCall (o : Oracle) (r : Request) (t : GoTime) :
    (r.method ≠ "POST" →
      (startInstanceHandler o r t).1.status_code = 405 ∧
      (startInstanceHandler o r t).2 = [] ∧
      (stopInstancesHandler o r t).1.status_code = 405 ∧
      (stopInstancesHandler o r t).2 = []) ∧
    (r.method ≠ "GET" →
      (checkInstancesHandler o r t).1.status_code = 405 ∧
      (checkInstancesHandler o r t).2 = []) := by
  constructor
  · intro hm
    simp [startInstanceHandler, stopInstancesHandler, hm, writeErrorResponse]
  · intro hm
    simp [checkInstancesHandler, hm, writeErrorResponse]

/-- C5 witness: a PUT request gets 405 with an empty call trace on all
three endpoints. -/
theorem methodNotAllowedWitness :
    (startInstanceHandler okOracle putRequest sampleTime).1.status_code = 405 ∧
    (startInstanceHandler okOracle putRequest sampleTime).2 = [] ∧
    (stopInstancesHandler okOracle putRequest sampleTime).1.status_code = 405 ∧
    (stopInstancesHandler okOracle putRequest sampleTime).2 = [] ∧
    (checkInstancesHandler okOracle putRequest sampleTime).1.status_code = 405 ∧
    (checkInstancesHandler okOracle putRequest sampleTime).2 = [] := by
  have h := methodNotAllowedNoProviderCall okOracle putRequest sampleTime
  have h1 := h.1 (by simp [putRequest])
  have h2 := h.2 (by simp [putRequest])
  exact ⟨h1.1, h1.2.1, h1.2.2.1, h1.2.2.2, h2.1, h2.2⟩

/-- C7 helper: a good envelope under a valid clock has an RFC3339
timestamp and the matching (nonempty) reason phrase. -/
theorem goodEnvelope_props (t : GoTime) (resp : HttpResponse) (h : validTime t)
    (hg : goodEnvelope t resp) :
    isRFC3339 resp.timestamp = true ∧
    resp.status_text = statusText resp.status_code ∧
    statusText resp.status_code ≠ "" := by
  obtain ⟨h1, h2, h3⟩ := hg
  refine ⟨by rw [h1]; exact isRFC3339_formatRFC3339 t h, h2, ?_⟩
  rcases h3 with h3 | h3 | h3 | h3 | h3 <;> rw [h3] <;> decide

/-- C7: every response any of the three handlers emits, success or
error, has a timestamp that parses as RFC3339 and a `status_text` equal
to the (nonempty) standard reason phrase for its `status_code`. -/
theorem everyResponseTimestampStatusText (o : Oracle) (r : Request) (t : GoTime)
    (h : validTime t) :
    (isRFC3339 (startInstanceHandler o r t).1.timestamp = true ∧
     (startInstanceHandler o r t).1.status_text =
       statusText (startInstanceHandler o r t).1.status_code ∧
     statusText (startInstanceHandler o r t).1.status_code ≠ "") ∧
    (isRFC3339 (stopInstancesHandler o r t).1.timestamp = true ∧
     (stopInstancesHandler o r t).1.status_text =
       statusText (stopInstancesHandler o r t).1.status_code ∧
     statusText (stopInstancesHandler o r t).1.status_code ≠ "") ∧
    (isRFC3339 (checkInstancesHandler o r t).1.timestamp = true ∧
     (checkInstancesHandler o r t).1.status_text =
       statusText (checkInstancesHandler o r t).1.status_code ∧
     statusText (checkInstancesHandler o r t).1.status_code ≠ "") :=
  ⟨goodEnvelope_props t _ h (goodEnvelope_start o r t),
   goodEnvelope_props t _ h (goodEnvelope_stop o r t),
   goodEnvelope_props t _ h (goodEnvelope_check o r t)⟩

/-- C7 witness: the envelope invariants hold at a concrete valid clock
reading, oracle, and request. -/
theorem everyResponseTimestampStatusTextWitness :
    validTime sampleTime ∧
    (isRFC3339 (startInstanceHandler okOracle alwaysRequest sampleTime).1.timestamp = true ∧
     (startInstanceHandler okOracle alwaysRequest sampleTime).1.status_text =
       statusText (startInstanceHandler okOracle alwaysRequest sampleTime).1.status_code ∧
     statusText (startInstanceHandler okOracle alwaysRequest sampleTime).1.status_code ≠ "") ∧
    (isRFC3339 (stopInstancesHandler okOracle alwaysRequest sampleTime).1.timestamp = true ∧
     (stopInstancesHandler okOracle alwaysRequest sampleTime).1.status_text =
       statusText (stopInstancesHandler okOracle alwaysRequest sampleTime).1.status_code ∧
     statusText (stopInstancesHandler okOracle alwaysRequest sampleTime).1.status_code ≠ "") ∧
    (isRFC3339 (checkInstancesHandler okOracle alwaysRequest sampleTime).1.timestamp = true ∧
     (checkInstancesHandler okOracle alwaysRequest sampleTime).1.status_text =
       statusText (checkInstancesHandler okOracle alwaysRequest sampleTime).1.status_code ∧
     statusText (checkInstancesHandler okOracle alwaysRequest sampleTime).1.status_code ≠ "") :=
  ⟨by decide, everyResponseTimestampStatusText okOracle alwaysRequest sampleTime (by decide)⟩

/-- C2: a POST to `/start` or `/stop` that reaches body validation with
a body that is not valid JSON, or whose `ActivationPolicy` is anything
but exactly `"ALWAYS"` or `"NEVER"` (absent, non-string, or another
string), gets status 400 and the patch call is never made. -/
theorem invalidBodyRejectedNoPatch (o : Oracle) (r : Request) (t : GoTime)
    (inst : DatabaseInstance)
    (hm : r.method = "POST")
    (ha : o.handlerAuth = .ok ())
    (hsa : o.statusAuth = .ok ())
    (hg : o.getInstance = .ok inst)
    (hb : invalidPolicyBody r.body) :
    ((startInstanceHandler o r t).1.status_code = 400 ∧
     ∀ p, ProviderCall.patch p ∉ (startInstanceHandler o r t).2) ∧
    (inst.state = "RUNNABLE" →
      (stopInstancesHandler o r t).1.status_code = 400 ∧
      ∀ p, ProviderCall.patch p ∉ (stopInstancesHandler o r t).2) := by
  have hcs : checkStatusInstances o =
      (.ok ⟨inst.name, inst.databaseVersion, inst.region, inst.state, inst.settings.tier⟩,
       [.auth, .get]) := by
    simp [checkStatusInstances, hsa, hg]
  cases hbody : r.body with
  | readErr e =>
    rw [hbody] at hb
    simp [invalidPolicyBody] at hb
  | invalidJson e =>
    constructor
    · constructor <;>
        simp [startInstanceHandler, hm, ha, hcs, hbody, writeErrorResponse]
    · intro hrun
      constructor <;>
        simp [stopInstancesHandler, hm, ha, hcs, hbody, hrun, writeErrorResponse]
  | json fields =>
    rw [hbody] at hb
    obtain ⟨h1, h2⟩ := hb
    cases hl : lookupString fields "ActivationPolicy" with
    | none =>
      constructor
      · constructor <;>
          simp [startInstanceHandler, hm, ha, hcs, hbody, hl, writeErrorResponse]
      · intro hrun
        constructor <;>
          simp [stopInstancesHandler, hm, ha, hcs, hbody, hl, hrun, writeErrorResponse]
    | some a =>
      have hna : a ≠ "ALWAYS" := fun he => h1 (he ▸ hl)
      have hnn : a ≠ "NEVER" := fun he => h2 (he ▸ hl)
      constructor
      · constructor <;>
          simp [startInstanceHandler, hm, ha, hcs, hbody, hl, hna, hnn, writeErrorResponse]
      · intro hrun
        constructor <;>
          simp [stopInstancesHandler, hm, ha, hcs, hbody, hl, hna, hnn, hrun,
                writeErrorResponse]

/-- C2 witness: a lowercase `"always"` policy gets 400 on both mutation
endpoints with the provider otherwise healthy and the instance runnable. -/
theorem invalidBodyRejectedNoPatchWitness :
    (startInstanceHandler okOracle lowercaseRequest sampleTime).1.status_code = 400 ∧
    (stopInstancesHandler okOracle lowercaseRequest sampleTime).1.status_code = 400 := by
  have h := invalidBodyRejectedNoPatch okOracle lowercaseRequest sampleTime sampleInstance
    rfl rfl rfl rfl
    (by constructor <;> simp [lowercaseRequest, invalidPolicyBody, lookupString])
  exact ⟨h.1.1, (h.2 rfl).1⟩

/-- C3 counterexample: with every provider call succeeding, a POST to
`/start` or `/stop` whose body lacks `ActivationPolicy` is rejected with
400, yet the call trace already contains the authentication and the
status read — so the rejection is not "before any remote call". -/
theorem rejectionNotBeforeRemoteCalls :
    (startInstanceHandler okOracle emptyJsonRequest sampleTime).1.status_code = 400 ∧
    ProviderCall.auth ∈ (startInstanceHandler okOracle emptyJsonRequest sampleTime).2 ∧
    ProviderCall.get ∈ (startInstanceHandler okOracle emptyJsonRequest sampleTime).2 ∧
    (stopInstancesHandler okOracle emptyJsonRequest sampleTime).1.status_code = 400 ∧
    ProviderCall.auth ∈ (stopInstancesHandler okOracle emptyJsonRequest sampleTime).2 ∧
    ProviderCall.get ∈ (stopInstancesHandler okOracle emptyJsonRequest sampleTime).2 := by
  decide

/-- C3 amended: a body whose `ActivationPolicy` is not exactly
`"ALWAYS"` or `"NEVER"` is rejected with 400 before the patch call (no
mutation ever occurs), but only after the handler has already
authenticated and fetched the instance status. -/
theorem invalidPolicyRejectedBeforePatch (o : Oracle) (r : Request) (t : GoTime)
    (inst : DatabaseInstance) (fields : List (String × JsonValue))
    (hm : r.method = "POST")
    (ha : o.handlerAuth = .ok ())
    (hsa : o.statusAuth = .ok ())
    (hg : o.getInstance = .ok inst)
    (hb : r.body = .json fields)
    (h1 : lookupString fields "ActivationPolicy" ≠ some "ALWAYS")
    (h2 : lookupString fields "ActivationPolicy" ≠ some "NEVER") :
    ((startInstanceHandler o r t).1.status_code = 400 ∧
     (∀ p, ProviderCall.patch p ∉ (startInstanceHandler o r t).2) ∧
     ProviderCall.auth ∈ (startInstanceHandler o r t).2 ∧
     ProviderCall.get ∈ (startInstanceHandler o r t).2) ∧
    (inst.state = "RUNNABLE" →
      (stopInstancesHandler o r t).1.status_code = 400 ∧
      (∀ p, ProviderCall.patch p ∉ (stopInstancesHandler o r t).2) ∧
      ProviderCall.auth ∈ (stopInstancesHandler o r t).2 ∧
      ProviderCall.get ∈ (stopInstancesHandler o r t).2) := by
  have hcs : checkStatusInstances o =
      (.ok ⟨inst.name, inst.databaseVersion, inst.region, inst.state, inst.settings.tier⟩,
       [.auth, .get]) := by
    simp [checkStatusInstances, hsa, hg]
  cases hl : lookupString fields "ActivationPolicy" with
  | none =>
    constructor
    · refine ⟨?_, ?_, ?_, ?_⟩ <;>
        simp [startInstanceHandler, hm, ha, hcs, hb, hl, writeErrorResponse]
    · intro hrun
      refine ⟨?_, ?_, ?_, ?_⟩ <;>
        simp [stopInstancesHandler, hm, ha, hcs, hb, hl, hrun, writeErrorResponse]
  | some a =>
    have hna : a ≠ "ALWAYS" := fun he => h1 (he ▸ hl)
    have hnn : a ≠ "NEVER" := fun he => h2 (he ▸ hl)
    constructor
    · refine ⟨?_, ?_, ?_, ?_⟩ <;>
        simp [startInstanceHandler, hm, ha, hcs, hb, hl, hna, hnn, writeErrorResponse]
    · intro hrun
      refine ⟨?_, ?_, ?_, ?_⟩ <;>
        simp [stopInstancesHandler, hm, ha, hcs, hb, hl, hna, hnn, hrun, writeErrorResponse]

/-- C3 amended witness: at a concrete all-healthy oracle and a body with
no `ActivationPolicy`, both mutation handlers reject with 400, never
patch, and have already authenticated and read the status. -/
theorem invalidPolicyRejectedBeforePatchWitness :
    (startInstanceHandler okOracle emptyJsonRequest sampleTime).1.status_code = 400 ∧
    (∀ p, ProviderCall.patch p ∉ (startInstanceHandler okOracle emptyJsonRequest sampleTime).2) ∧
    (stopInstancesHandler okOracle emptyJsonRequest sampleTime).1.status_code = 400 ∧
    (∀ p, ProviderCall.patch p ∉ (stopInstancesHandler okOracle emptyJsonRequest sampleTime).2) := by
  have h := invalidPolicyRejectedBeforePatch okOracle emptyJsonRequest sampleTime
    sampleInstance [] rfl rfl rfl rfl rfl
    (by simp [lookupString]) (by simp [lookupString])
  exact ⟨h.1.1, h.1.2.1, (h.2 rfl).1, (h.2 rfl).2.1⟩

/-- C4: when the status fetch succeeds with any state other than
`"RUNNABLE"`, `/stop` responds 400 with the message
`"Instance currently in <state> state."` and never calls patch. -/
theorem stopNonRunnableRejected (o : Oracle) (r : Request) (t : GoTime)
    (inst : DatabaseInstance)
    (hm : r.method = "POST")
    (ha : o.handlerAuth = .ok ())
    (hsa : o.statusAuth = .ok ())
    (hg : o.getInstance = .ok inst)
    (hst : inst.state ≠ "RUNNABLE") :
    (stopInstancesHandler o r t).1.status_code = 400 ∧
    (stopInstancesHandler o r t).1.message =
      "Instance currently in " ++ inst.state ++ " state." ∧
    ∀ p, ProviderCall.patch p ∉ (stopInstancesHandler o r t).2 := by
  have hcs : checkStatusInstances o =
      (.ok ⟨inst.name, inst.databaseVersion, inst.region, inst.state, inst.settings.tier⟩,
       [.auth, .get]) := by
    simp [checkStatusInstances, hsa, hg]
  refine ⟨?_, ?_, ?_⟩ <;>
    simp [stopInstancesHandler, hm, ha, hcs, hst, writeErrorResponse]

/-- C4 witness: stopping a concrete STOPPED instance yields 400 with the
message naming the STOPPED state. -/
theorem stopNonRunnableRejectedWitness :
    (stopInstancesHandler stoppedOracle alwaysRequest sampleTime).1.status_code = 400 ∧
    (stopInstancesHandler stoppedOracle alwaysRequest sampleTime).1.message =
      "Instance currently in STOPPED state." := by
  have h := stopNonRunnableRejected stoppedOracle alwaysRequest sampleTime stoppedInstance
    rfl rfl rfl rfl (by decide)
  exact ⟨h.1, h.2.1⟩

/-- C6: a successful GET on `/check` returns 200 with data equal to the
five-field projection (`SQLInstancesData` has exactly the fields name,
databaseVersion, region, state, tier and nothing else); a successful
POST on `/start` or `/stop` returns 200 with data equal to the
provider's full patch response. -/
theorem successPayloadShapes (o : Oracle) (r : Request) (t : GoTime)
    (inst : DatabaseInstance)
    (ha : o.handlerAuth = .ok ())
    (hsa : o.statusAuth = .ok ())
    (hg : o.getInstance = .ok inst) :
    (r.method = "GET" →
      (checkInstancesHandler o r t).1.status_code = 200 ∧
      (checkInstancesHandler o r t).1.body =
        .success (.snapshot ⟨inst.name, inst.databaseVersion, inst.region,
                             inst.state, inst.settings.tier⟩)) ∧
    (∀ fields a patched, r.method = "POST" → r.body = .json fields →
      lookupString fields "ActivationPolicy" = some a →
      (a = "ALWAYS" ∨ a = "NEVER") →
      o.patchInstance a = .ok patched →
      ((startInstanceHandler o r t).1.status_code = 200 ∧
       (startInstanceHandler o r t).1.body = .success (.full patched)) ∧
      (inst.state = "RUNNABLE" →
        (stopInstancesHandler o r t).1.status_code = 200 ∧
        (stopInstancesHandler o r t).1.body = .success (.full patched))) := by
  have hcs : checkStatusInstances o =
      (.ok ⟨inst.name, inst.databaseVersion, inst.region, inst.state, inst.settings.tier⟩,
       [.auth, .get]) := by
    simp [checkStatusInstances, hsa, hg]
  constructor
  · intro hm
    constructor <;> simp [checkInstancesHandler, hm, ha, hcs, writeSuccessResponse]
  · intro fields a patched hm hb hl hv hp
    have hcond : ¬(a ≠ "ALWAYS" ∧ a ≠ "NEVER") := by
      rcases hv with rfl | rfl <;> simp
    constructor
    · constructor <;>
        simp [startInstanceHandler, hm, ha, hcs, hb, hl, hcond, hp, writeSuccessResponse]
    · intro hrun
      constructor <;>
        simp [stopInstancesHandler, hm, ha, hcs, hb, hl, hcond, hrun, hp,
              writeSuccessResponse]

/-- C6 witness: concrete success payloads — the `/check` data is the
five-field projection of the fetched instance and the `/start` and
`/stop` data are the full patch response. -/
theorem successPayloadShapesWitness :
    (checkInstancesHandler okOracle getRequest sampleTime).1.status_code = 200 ∧
    (checkInstancesHandler okOracle getRequest sampleTime).1.body =
      .success (.snapshot ⟨"mydb", "POSTGRES_15", "us-central1", "RUNNABLE", "db-f1-micro"⟩) ∧
    (startInstanceHandler okOracle alwaysRequest sampleTime).1.status_code = 200 ∧
    (startInstanceHandler okOracle alwaysRequest sampleTime).1.body =
      .success (.full sampleInstance) ∧
    (stopInstancesHandler okOracle alwaysRequest sampleTime).1.status_code = 200 ∧
    (stopInstancesHandler okOracle alwaysRequest sampleTime).1.body =
      .success (.full sampleInstance) := by
  have hc := successPayloadShapes okOracle getRequest sampleTime sampleInstance rfl rfl rfl
  have hm := successPayloadShapes okOracle alwaysRequest sampleTime sampleInstance rfl rfl rfl
  have h1 := hc.1 rfl
  have h2 := hm.2 [("ActivationPolicy", JsonValue.str "ALWAYS")] "ALWAYS" sampleInstance
    rfl rfl (by simp [lookupString]) (Or.inl rfl) rfl
  exact ⟨h1.1, h1.2, h2.1.1, h2.1.2, (h2.2 rfl).1, (h2.2 rfl).2⟩

/-- C8: `/start` never checks the fetched state: for any fetched
instance state at all, a valid body leads to the patch call, and the
response is 200 or 500 (the patch outcome) — never a state-based 400. -/
theorem startIgnoresFetchedState (o : Oracle) (r : Request) (t : GoTime)
    (inst : DatabaseInstance) (fields : List (String × JsonValue)) (a : String)
    (hm : r.method = "POST")
    (ha : o.handlerAuth = .ok ())
    (hsa : o.statusAuth = .ok ())
    (hg : o.getInstance = .ok inst)
    (hb : r.body = .json fields)
    (hl : lookupString fields "ActivationPolicy" = some a)
    (hv : a = "ALWAYS" ∨ a = "NEVER") :
    ProviderCall.patch a ∈ (startInstanceHandler o r t).2 ∧
    ((startInstanceHandler o r t).1.status_code = 200 ∨
     (startInstanceHandler o r t).1.status_code = 500) := by
  have hcs : checkStatusInstances o =
      (.ok ⟨inst.name, inst.databaseVersion, inst.region, inst.state, inst.settings.tier⟩,
       [.auth, .get]) := by
    simp [checkStatusInstances, hsa, hg]
  have hcond : ¬(a ≠ "ALWAYS" ∧ a ≠ "NEVER") := by
    rcases hv with rfl | rfl <;> simp
  cases hp : o.patchInstance a with
  | error e =>
    constructor
    · simp [startInstanceHandler, hm, ha, hcs, hb, hl, hcond, hp]
    · right
      simp [startInstanceHandler, hm, ha, hcs, hb, hl, hcond, hp, writeErrorResponse]
  | ok d =>
    constructor
    · simp [startInstanceHandler, hm, ha, hcs, hb, hl, hcond, hp]
    · left
      simp [startInstanceHandler, hm, ha, hcs, hb, hl, hcond, hp, writeSuccessResponse]

/-- C8 witness: starting a concrete STOPPED instance still patches and
returns 200 — the state that makes `/stop` reject does not affect
`/start`. -/
theorem startIgnoresFetchedStateWitness :
    ProviderCall.patch "ALWAYS" ∈
      (startInstanceHandler stoppedOracle alwaysRequest sampleTime).2 ∧
    ((startInstanceHandler stoppedOracle alwaysRequest sampleTime).1.status_code = 200 ∨
     (startInstanceHandler stoppedOracle alwaysRequest sampleTime).1.status_code = 500) :=
  startIgnoresFetchedState stoppedOracle alwaysRequest sampleTime stoppedInstance
    [("ActivationPolicy", JsonValue.str "ALWAYS")] "ALWAYS"
    rfl rfl rfl rfl rfl (by simp [lookupString]) (Or.inl rfl)

/-- C9: when the handler's own authentication fails, each endpoint
(under its correct method) returns 401, the auth error is classified
`internal_error` — or `googleapi_<code>` when it is provider-coded —
and no further provider call happens: the trace is the single auth
attempt. -/
theorem authFailure401NoDownstream (o : Oracle) (r : Request) (t : GoTime) (e : GoError)
    (ha : o.handlerAuth = .error e) :
    (r.method = "POST" →
      ((startInstanceHandler o r t).1.status_code = 401 ∧
       (startInstanceHandler o r t).1.body =
         .failure (match e with
                   | .googleapi code _ _ => "googleapi_" ++ toString code
                   | .generic _ => "internal_error")
                  (match e with
                   | .googleapi _ msg _ => msg
                   | .generic s => s) ∧
       (startInstanceHandler o r t).2 = [.auth]) ∧
      ((stopInstancesHandler o r t).1.status_code = 401 ∧
       (stopInstancesHandler o r t).1.body =
         .failure (match e with
                   | .googleapi code _ _ => "googleapi_" ++ toString code
                   | .generic _ => "internal_error")
                  (match e with
                   | .googleapi _ msg _ => msg
                   | .generic s => s) ∧
       (stopInstancesHandler o r t).2 = [.auth])) ∧
    (r.method = "GET" →
      (checkInstancesHandler o r t).1.status_code = 401 ∧
      (checkInstancesHandler o r t).1.body =
        .failure (match e with
                  | .googleapi code _ _ => "googleapi_" ++ toString code
                  | .generic _ => "internal_error")
                 (match e with
                  | .googleapi _ msg _ => msg
                  | .generic s => s) ∧
      (checkInstancesHandler o r t).2 = [.auth]) := by
  constructor
  · intro hm
    constructor
    · refine ⟨?_, ?_, ?_⟩ <;> cases e <;>
        simp [startInstanceHandler, hm, ha, writeErrorResponse, classifyError]
    · refine ⟨?_, ?_, ?_⟩ <;> cases e <;>
        simp [stopInstancesHandler, hm, ha, writeErrorResponse, classifyError]
  · intro hm
    refine ⟨?_, ?_, ?_⟩ <;> cases e <;>
      simp [checkInstancesHandler, hm, ha, writeErrorResponse, classifyError]

/-- C9 witness: with a concrete failing credentials load, `/start` and
`/check` return 401 and perform only the auth attempt. -/
theorem authFailure401NoDownstreamWitness :
    (startInstanceHandler authFailOracle alwaysRequest sampleTime).1.status_code = 401 ∧
    (startInstanceHandler authFailOracle alwaysRequest sampleTime).2 = [ProviderCall.auth] ∧
    (checkInstancesHandler authFailOracle getRequest sampleTime).1.status_code = 401 ∧
    (checkInstancesHandler authFailOracle getRequest sampleTime).2 = [ProviderCall.auth] := by
  have hp := authFailure401NoDownstream authFailOracle alwaysRequest sampleTime
    (.generic "oauth2: cannot read credentials file") rfl
  have hg := authFailure401NoDownstream authFailOracle getRequest sampleTime
    (.generic "oauth2: cannot read credentials file") rfl
  exact ⟨(hp.1 rfl).1.1, (hp.1 rfl).1.2.2, (hg.2 rfl).1, (hg.2 rfl).2.2⟩

/-- C10: when `Instances.Get` fails inside `checkStatusInstances` —
whatever the shape of the underlying cause, including a provider-coded
`*googleapi.Error` — every handler returns 500 classified
`internal_error` with the wrapped failure message as description,
because each handler passes `err.Error()` (a string) to the formatter;
the lookup path never yields `googleapi_<code>`. -/
theorem lookupFailureAlwaysInternalError (o : Oracle) (r : Request) (t : GoTime)
    (ge : GoError)
    (ha : o.handlerAuth = .ok ())
    (hsa : o.statusAuth = .ok ())
    (hg : o.getInstance = .error ge) :
    (r.method = "POST" →
      ((startInstanceHandler o r t).1.status_code = 500 ∧
       (startInstanceHandler o r t).1.body =
         .failure "internal_error"
           ("failed to get instance details, instances not found.: " ++ ge.render) ∧
       ∀ p, ProviderCall.patch p ∉ (startInstanceHandler o r t).2) ∧
      ((stopInstancesHandler o r t).1.status_code = 500 ∧
       (stopInstancesHandler o r t).1.body =
         .failure "internal_error"
           ("failed to get instance details, instances not found.: " ++ ge.render) ∧
       ∀ p, ProviderCall.patch p ∉ (stopInstancesHandler o r t).2)) ∧
    (r.method = "GET" →
      (checkInstancesHandler o r t).1.status_code = 500 ∧
      (checkInstancesHandler o r t).1.body =
        .failure "internal_error"
          ("failed to get instance details, instances not found.: " ++ ge.render)) := by
  have hcs : checkStatusInstances o =
      (.error (.generic ("failed to get instance details, instances not found.: " ++ ge.render)),
       [.auth, .get]) := by
    simp [checkStatusInstances, hsa, hg]
  constructor
  · intro hm
    constructor
    · refine ⟨?_, ?_, ?_⟩ <;>
        simp [startInstanceHandler, hm, ha, hcs, writeErrorResponse, classifyError,
              GoError.render]
    · refine ⟨?_, ?_, ?_⟩ <;>
        simp [stopInstancesHandler, hm, ha, hcs, writeErrorResponse, classifyError,
              GoError.render]
  · intro hm
    constructor <;>
      simp [checkInstancesHandler, hm, ha, hcs, writeErrorResponse, classifyError,
            GoError.render]

/-- C10 witness: a concrete provider-coded 404 on the lookup path still
comes back as `internal_error` (never `googleapi_404`) with the wrapped
message, on `/check` and on `/start`. -/
theorem lookupFailureAlwaysInternalErrorWitness :
    (checkInstancesHandler lookupFailOracle getRequest sampleTime).1.status_code = 500 ∧
    (checkInstancesHandler lookupFailOracle getRequest sampleTime).1.body =
      .failure "internal_error"
        ("failed to get instance details, instances not found.: " ++ notFoundErr.render) ∧
    (startInstanceHandler lookupFailOracle alwaysRequest sampleTime).1.status_code = 500 := by
  have hp := lookupFailureAlwaysInternalError lookupFailOracle alwaysRequest sampleTime
    notFoundErr rfl rfl rfl
  have hg := lookupFailureAlwaysInternalError lookupFailOracle getRequest sampleTime
    notFoundErr rfl rfl rfl
  exact ⟨(hg.2 rfl).1, (hg.2 rfl).2, (hp.1 rfl).1.1⟩

end GcpSqlScheduler
